import Mathlib

/-!
# Verification of the pytest-timeout deadline-enforcement plugin

Shallow embedding of `src/pytest_timeout.py` (the `TimeoutPlugin` class) and of
the session-deadline component described in the specification (whose
implementation is absent from `src/`, attested only by its tests in
`src/test_pytest_timeout.py`).

Python values that can appear as a timeout-marker argument, an environment
string or a configuration-file string are modelled by `TVal`; Python floats are
modelled as rationals; fallible Python code (raising `TypeError`/`ValueError`)
is modelled with `Except String`.
-/

namespace PytestTimeout

/-- A Python value that can appear in a `@pytest.mark.timeout(...)` marker or
as a configuration string.  Floats are modelled as rationals; `None` marker
arguments do not occur in the claims and are not modelled. -/
inductive TVal where
  | vInt (n : Int)
  | vFloat (q : ℚ)
  | vStr (s : String)
  | vBool (b : Bool)
deriving DecidableEq, Repr

/-- Python `str()` of a `TVal`, as interpolated by `'%s' % value`.  The claims
never depend on the rendering of a float, so a float is rendered as its
rational literal. -/
def pyStr : TVal → String
  | .vInt n => toString n
  | .vFloat q => toString q
  | .vStr s => s
  | .vBool b => if b then "True" else "False"

/-- Accumulate decimal digits; any non-digit character fails, as Python's
`int(...)` does. -/
def natOfDigits? : List Char → Nat → Option Nat
  | [], acc => some acc
  | c :: rest, acc =>
    if c.isDigit then natOfDigits? rest (acc * 10 + (c.toNat - '0'.toNat))
    else none

/-- Python `int(string)` on a stripped string: an optional sign followed by at
least one decimal digit; anything else raises `ValueError` (`none`). -/
def pyIntOfString (s : String) : Option Int :=
  match s.data with
  | [] => none
  | '-' :: rest =>
    if rest.isEmpty then none else (natOfDigits? rest 0).map (fun n => -(n : Int))
  | '+' :: rest =>
    if rest.isEmpty then none else (natOfDigits? rest 0).map (fun n => (n : Int))
  | cs => (natOfDigits? cs 0).map (fun n => (n : Int))

/-- Python `int(value)`: an `int` is returned unchanged, a `float` is
truncated toward zero, a string of optionally-signed decimal digits is parsed
(any other string raises `ValueError`), and a `bool` maps to 0/1. -/
def pyInt : TVal → Except String Int
  | .vInt n => .ok n
  | .vFloat q => .ok (Int.tdiv q.num q.den)
  | .vStr s =>
      match pyIntOfString s with
      | some n => .ok n
      | none => .error "ValueError"
  | .vBool b => .ok (if b then 1 else 0)

/-- A `@pytest.mark.timeout` marker: its positional arguments and keyword
arguments. -/
structure Marker where
  args : List TVal
  kwargs : List (String × TVal)
deriving DecidableEq, Repr

/-- The keyword loop of `TimeoutPlugin._parse_marker` (src/pytest_timeout.py
lines 87-94): recognized keywords are `timeout` and `method`; any other
keyword raises `TypeError`.  `none` plays the role of the `NOTSET` sentinel. -/
def applyKwargs : List (String × TVal) → Option TVal → Option TVal →
    Except String (Option TVal × Option TVal)
  | [], t, m => .ok (t, m)
  | (kw, val) :: rest, t, m =>
    if kw = "timeout" then applyKwargs rest (some val) m
    else if kw = "method" then applyKwargs rest t (some val)
    else .error ("Invalid keyword argument for timeout marker: " ++ kw)

/-- Model of `TimeoutPlugin._parse_marker` (src/pytest_timeout.py lines 78-111).
Returns the `(timeout, method)` values of the marker, either of which may be
absent; the values are not interpreted. -/
def _parse_marker (marker : Marker) : Except String (Option TVal × Option TVal) :=
  if marker.args.isEmpty ∧ marker.kwargs.isEmpty then
    .error "Timeout marker must have at least one argument"
  else
    match applyKwargs marker.kwargs none none with
    | .error e => .error e
    | .ok (timeout0, method0) =>
      if 1 ≤ marker.args.length ∧ timeout0.isSome then
        .error "Multiple values for timeout argument of timeout marker"
      else
        let timeout1 := if 1 ≤ marker.args.length then marker.args[0]? else timeout0
        if 2 ≤ marker.args.length ∧ method0.isSome then
          .error "Multiple values for method argument of timeout marker"
        else
          let method1 := if 2 ≤ marker.args.length then marker.args[1]? else method0
          if 2 < marker.args.length then
            .error "Too many arguments for timeout marker"
          else .ok (timeout1, method1)

/-- Model of `TimeoutPlugin._validate_timeout` (src/pytest_timeout.py lines 113-119):
`None` passes through, otherwise the value goes through `int(...)` and a
`ValueError` is reported naming the value and the source layer. -/
def _validate_timeout : Option TVal → String → Except String (Option Int)
  | none, _ => .ok none
  | some v, w =>
    match pyInt v with
    | .ok n => .ok (some n)
    | .error _ => .error ("Invalid timeout " ++ pyStr v ++ " from " ++ w)

/-- Model of `TimeoutPlugin._validate_method` (src/pytest_timeout.py lines 121-126):
`None` passes through, otherwise the value must be the string `signal` or
`thread`. -/
def _validate_method : Option TVal → String → Except String (Option String)
  | none, _ => .ok none
  | some v, w =>
    match v with
    | .vStr s =>
      if s = "signal" ∨ s = "thread" then .ok (some s)
      else .error ("Invalid method " ++ s ++ " from " ++ w)
    | _ => .error ("Invalid method " ++ pyStr v ++ " from " ++ w)

/-- Model of `DEFAULT_METHOD` (src/pytest_timeout.py lines 20-24): `signal` when the
platform has `SIGALRM`, else `thread`. -/
def DEFAULT_METHOD (haveSigalrm : Bool) : String :=
  if haveSigalrm then "signal" else "thread"

/-- The configuration surrounding one test item: platform capability,
command-line options (`--timeout` is parsed as an `int` by the option parser,
`--timeout_method` as one of the two choices), the `PYTEST_TIMEOUT`
environment variable, and the two ini keys (the empty string models an unset,
falsy ini value). -/
structure ConfigEnv where
  haveSigalrm : Bool
  cmdTimeout : Option Int
  cmdMethod : Option String
  envTimeout : Option String
  iniTimeout : String
  iniMethod : String
deriving DecidableEq, Repr

/-- The marker block of `TimeoutPlugin.get_params` (src/pytest_timeout.py
lines 131-134): when a `timeout` marker is attached, parse it and validate
both fields against the `marker` layer. -/
def markerParams (marker : Option Marker) : Except String (Option Int × Option String) :=
  match marker with
  | none => .ok (none, none)
  | some m =>
    match _parse_marker m with
    | .error e => .error e
    | .ok (t, meth) =>
      match _validate_timeout t "marker" with
      | .error e => .error e
      | .ok t' =>
        match _validate_method meth "marker" with
        | .error e => .error e
        | .ok m' => .ok (t', m')

/-- The timeout cascade of `TimeoutPlugin.get_params` (src/pytest_timeout.py
lines 135-144): marker value, else command line, else environment variable,
else config-file ini value. -/
def resolveTimeout (cfg : ConfigEnv) (t0 : Option Int) : Except String (Option Int) :=
  match t0 with
  | some t => .ok (some t)
  | none =>
    match cfg.cmdTimeout with
    | some t => .ok (some t)
    | none =>
      match _validate_timeout (cfg.envTimeout.map TVal.vStr)
          "PYTEST_TIMEOUT environment variable" with
      | .error e => .error e
      | .ok (some t) => .ok (some t)
      | .ok none =>
        if cfg.iniTimeout ≠ "" then
          _validate_timeout (some (TVal.vStr cfg.iniTimeout)) "config file"
        else .ok none

/-- The method cascade of `TimeoutPlugin.get_params` (src/pytest_timeout.py
lines 145-152): marker value, else command line, else config-file ini value,
else `DEFAULT_METHOD`. -/
def resolveMethod (cfg : ConfigEnv) (m0 : Option String) : Except String String :=
  match m0 with
  | some m => .ok m
  | none =>
    match cfg.cmdMethod with
    | some m => .ok m
    | none =>
      match (if cfg.iniMethod ≠ "" then
          _validate_method (some (TVal.vStr cfg.iniMethod)) "config file"
        else .ok none) with
      | .error e => .error e
      | .ok (some m) => .ok m
      | .ok none => .ok (DEFAULT_METHOD cfg.haveSigalrm)

/-- Model of `TimeoutPlugin.get_params` (src/pytest_timeout.py lines 128-153):
resolve the `(timeout, method)` pair for one test item. -/
def get_params (cfg : ConfigEnv) (marker : Option Marker) :
    Except String (Option Int × String) :=
  match markerParams marker with
  | .error e => .error e
  | .ok (t0, m0) =>
    match resolveTimeout cfg t0 with
    | .error e => .error e
    | .ok timeout =>
      match resolveMethod cfg m0 with
      | .error e => .error e
      | .ok method => .ok (timeout, method)

/-- The action taken by `TimeoutPlugin.pytest_runtest_setup`: arm nothing,
install the SIGALRM handler and alarm, or start a watchdog `threading.Timer`. -/
inductive Arming where
  | noArming
  | armSignal (t : Int)
  | armThread (t : Int)
deriving DecidableEq, Repr

/-- Model of `TimeoutPlugin.pytest_runtest_setup` (src/pytest_timeout.py lines
155-174).  The guard `if timeout <= 0: return` carries the source comment
`# None < 0`: an absent timeout compares below zero (Python 2 ordering), so
no enforcement is armed. -/
def pytest_runtest_setup (cfg : ConfigEnv) (marker : Option Marker) :
    Except String Arming :=
  match get_params cfg marker with
  | .error e => .error e
  | .ok (timeout, method) =>
    match timeout with
    | none => .ok .noArming
    | some t =>
      if t ≤ 0 then .ok .noArming
      else if method = "signal" then .ok (.armSignal t)
      else if method = "thread" then .ok (.armThread t)
      else .ok .noArming

/-- From the spec's words (§3 resolution precedence): the value of the
highest-priority layer that supplies one, the layers listed highest first. -/
def specFirstSupplied {α : Type} : List (Option α) → Option α
  | [] => none
  | some v :: _ => some v
  | none :: rest => specFirstSupplied rest

/-! ## SIGALRM handler state (arm / disarm of the Signal variant) -/

/-- The disposition of the process's SIGALRM handler. -/
inductive SigHandler where
  | dfl
  | timeoutHandler
  | other (name : String)
deriving DecidableEq, Repr

/-- The SIGALRM state of the process: the seconds of a pending
`signal.alarm` (0 means none pending) and the installed handler. -/
structure SignalState where
  alarmSeconds : Nat
  handler : SigHandler
deriving DecidableEq, Repr

/-- The signal branch of `pytest_runtest_setup` (src/pytest_timeout.py lines
160-168): `signal.signal(signal.SIGALRM, handler)` followed by
`signal.alarm(timeout)`. -/
def arm_sigalrm (timeout : Nat) (_s : SignalState) : SignalState :=
  { alarmSeconds := timeout, handler := .timeoutHandler }

/-- Model of `TimeoutPlugin.cancel_sigalrm` (src/pytest_timeout.py lines 186-188):
`signal.alarm(0)` then `signal.signal(signal.SIGALRM, signal.SIG_DFL)`. -/
def cancel_sigalrm (_s : SignalState) : SignalState :=
  { alarmSeconds := 0, handler := .dfl }

/-! ## Output effects, stack dumping, and the two expiry handlers -/

/-- One observable effect of an expiry handler: a section title written by
`write_title` (with its separator character), raw text written by `write`,
`traceback.print_exc()`, a stream flush, or `os._exit`. -/
inductive Effect where
  | title (t : String) (sep : Char)
  | text (s : String)
  | printExc
  | flushStdout
  | flushStderr
  | exitProcess (code : Nat)
deriving DecidableEq, Repr

/-- The name-resolution loop inside `TimeoutPlugin.dump_stacks`
(src/pytest_timeout.py lines 275-280): the first thread in
`threading.enumerate()` whose `ident` matches is used, else the literal
`<unknown>`. -/
def lookupThreadName (threads : List (Nat × String)) (ident : Nat) : String :=
  match threads.find? (fun t => t.1 = ident) with
  | some t => t.2
  | none => "<unknown>"

/-- Model of `TimeoutPlugin.dump_stacks` (src/pytest_timeout.py lines 269-282).
`frames` models `sys._current_frames().items()` (thread ident paired with its
rendered stack, i.e. `''.join(traceback.format_stack(frame))`); `threads`
models `threading.enumerate()` as ident/name pairs; `cur` is
`threading.current_thread().ident`. -/
def dump_stacks (cur : Nat) (frames : List (Nat × String))
    (threads : List (Nat × String)) : List Effect :=
  match frames with
  | [] => []
  | (ident, stack) :: rest =>
    if ident = cur then dump_stacks cur rest threads
    else
      .title ("Stack of " ++ lookupThreadName threads ident ++ " (" ++ toString ident ++ ")") '~'
        :: .text stack :: dump_stacks cur rest threads

/-- One live Python thread as the expiry handlers see it: its ident, its
display name, and its rendered stack. -/
structure PyThread where
  ident : Nat
  name : String
  stack : String
deriving DecidableEq, Repr

/-- Model of `TimeoutPlugin.timeout_sigalrm` (src/pytest_timeout.py lines 195-209):
when more than one thread is alive a `+`-separated `Timeout` banner is written
before and after the stack dump; the handler then raises a test failure with
the literal message `Timeout >{timeout}s`.  `threads` is the list of live
threads (`threading.enumerate()`), `cur` the ident of the interrupted thread
performing the dump.  Returns the written effects and the failure message
passed to `pytest.fail`. -/
def timeout_sigalrm (cur : Nat) (threads : List PyThread) (timeout : Int) :
    List Effect × String :=
  let nthreads := threads.length
  ((if nthreads > 1 then [Effect.title "Timeout" '+'] else [])
      ++ dump_stacks cur (threads.map fun t => (t.ident, t.stack))
          (threads.map fun t => (t.ident, t.name))
      ++ (if nthreads > 1 then [Effect.title "Timeout" '+'] else []),
   "Timeout >" ++ toString timeout ++ "s")

/-- The SIGALRM handler installed by `pytest_runtest_setup`
(src/pytest_timeout.py lines 162-164): it calls `timeout_sigalrm`
unconditionally.  The `debuggerActive` argument records whether an interactive
debugger owns the interrupted thread's trace hook at delivery time; the
installed handler contains no code that consults it. -/
def signal_expiry_handler (_debuggerActive : Bool) (cur : Nat)
    (threads : List PyThread) (timeout : Int) : List Effect × String :=
  timeout_sigalrm cur threads timeout

/-! ## The Thread-variant expiry handler `timeout_timer` -/

/-- The environment of one `timeout_timer` invocation: whether the
`capturemanager` plugin is registered, whether its `suspendcapture` call
raises, the captured stdout/stderr (the empty string models an empty or
`None`, i.e. falsy, capture), the `_capturelog` plugin state, the live-thread
data for the stack dump, and `raiseAfter` — when `some n` with `n` smaller
than the number of effects the `try` block would write, an exception is raised
after the first `n` of them (modelling any diagnostic step raising partway). -/
structure TimerEnv where
  capmanPresent : Bool
  suspendRaises : Bool
  stdout : String
  stderr : String
  caplogPresent : Bool
  caplog : String
  cur : Nat
  frames : List (Nat × String)
  threads : List (Nat × String)
  raiseAfter : Option Nat
deriving DecidableEq, Repr

/-- The effects the `try` block of `TimeoutPlugin.timeout_timer`
(src/pytest_timeout.py lines 217-237) writes when no step raises: the opening
`+` banner, the captured-log section (when the `_capturelog` plugin is present
and its log is non-empty), the captured stdout and stderr sections (each only
when truthy), the stack dump, and the closing `+` banner. -/
def timer_try_full (env : TimerEnv) : List Effect :=
  [Effect.title "Timeout" '+']
    ++ (if env.caplogPresent ∧ env.caplog ≠ "" then
          [Effect.title "Captured log" '~', Effect.text env.caplog] else [])
    ++ (if env.stdout ≠ "" then
          [Effect.title "Captured stdout" '~', Effect.text env.stdout] else [])
    ++ (if env.stderr ≠ "" then
          [Effect.title "Captured stderr" '~', Effect.text env.stderr] else [])
    ++ dump_stacks env.cur env.frames env.threads
    ++ [Effect.title "Timeout" '+']

/-- The `try` block of `timeout_timer`: the effects actually written and
whether an exception escaped the block.  When `capturemanager` is absent the
source executes `stdout, stderr = None`, which raises `TypeError` before any
output; a raising `suspendcapture` likewise produces no output; otherwise the
block writes a prefix of `timer_try_full` determined by `raiseAfter`. -/
def timer_try_body (env : TimerEnv) : List Effect × Bool :=
  if ¬env.capmanPresent then ([], true)
  else if env.suspendRaises then ([], true)
  else
    let full := timer_try_full env
    match env.raiseAfter with
    | some n => if n < full.length then (full.take n, true) else (full, false)
    | none => (full, false)

/-- Model of `TimeoutPlugin.timeout_timer` (src/pytest_timeout.py lines 211-243): the
`try` block's diagnostics, `traceback.print_exc()` when the block raised
(the `except Exception` clause), and the `finally` clause —
`sys.stdout.flush()`, `sys.stderr.flush()`, `os._exit(1)` — on every path. -/
def timeout_timer (env : TimerEnv) : List Effect :=
  let (effs, raised) := timer_try_body env
  (effs ++ (if raised then [Effect.printExc] else []))
    ++ [Effect.flushStdout, Effect.flushStderr, Effect.exitProcess 1]

/-! ## Session deadline

`src/` contains no session-deadline implementation; only its tests exist
(`src/test_pytest_timeout.py` lines 616-663).  The component is therefore
modelled from the specification (§4.6), with the banner literal taken from
those tests. -/

/-- Modelled from the spec: the SessionDeadline phases
`Idle -> Running -> Expired` (§4.6); the implementation is absent from
`src/`. -/
inductive SessionPhase where
  | Idle
  | Running
  | Expired
deriving DecidableEq, Repr

/-- Modelled from the spec: the session-deadline state — its phase, the
elapsed run time, the banners written so far, and whether the scheduler has
been signalled to stop launching further units of work (§4.6); the
implementation is absent from `src/`. -/
structure SessionState where
  phase : SessionPhase
  elapsed : Nat
  banners : List String
  stopScheduling : Bool
deriving DecidableEq, Repr

/-- Python `str(float(n))` for an integral value `n`, as the session deadline
is rendered in the banner (the tests show `2.0`, `1.0`). -/
def floatStrOfNat (n : Nat) : String := toString n ++ ".0"

/-- The session-expiry banner.  The literal is the one the repository's own
tests assert (`src/test_pytest_timeout.py` lines 638 and 662):
`!! session-timeout: {deadline} sec exceeded !!!`. -/
def sessionBanner (deadline : Nat) : String :=
  "!! session-timeout: " ++ floatStrOfNat deadline ++ " sec exceeded !!!"

/-- Modelled from the spec: `check()`, called after every unit of work
completes, transitions `Running -> Expired` once elapsed time exceeds the
configured deadline, and on that transition writes a single banner and
signals the scheduler to stop launching further units (§4.6); the
implementation is absent from `src/`. -/
def session_check (deadline : Nat) (s : SessionState) : SessionState :=
  match s.phase with
  | .Running =>
    if deadline < s.elapsed then
      { phase := .Expired, elapsed := s.elapsed,
        banners := s.banners ++ [sessionBanner deadline],
        stopScheduling := true }
    else s
  | _ => s

/-- Modelled from the spec: the scheduling loop around the session deadline —
units of work run sequentially; a unit that has started always runs to
completion and reports its own outcome; after each completed unit `check()`
runs; once the scheduler has been signalled to stop, no further unit begins
execution (§4.6, §2 control flow); the implementation is absent from `src/`.
A unit is a `(duration, outcome)` pair; returns the reported outcomes of the
units that executed and the final session state. -/
def runUnits (deadline : Nat) (s : SessionState) :
    List (Nat × String) → List String × SessionState
  | [] => ([], s)
  | (dur, outcome) :: rest =>
    if s.stopScheduling then ([], s)
    else
      let s2 := session_check deadline
        { phase := s.phase, elapsed := s.elapsed + dur,
          banners := s.banners, stopScheduling := s.stopScheduling }
      let r := runUnits deadline s2 rest
      (outcome :: r.1, r.2)

/-- Modelled from the spec: a whole run under a configured session deadline,
starting from the `Running` state entered by `start()` at elapsed time 0
(§4.6); the implementation is absent from `src/`. -/
def runSession (deadline : Nat) (units : List (Nat × String)) :
    List String × SessionState :=
  runUnits deadline
    { phase := .Running, elapsed := 0, banners := [], stopScheduling := false }
    units

/-- From the spec's words: the number of units of work that begin execution —
the first unit always runs, and after each unit the deadline check either
stops the run (elapsed time exceeds the deadline) or lets the next unit
start. -/
def specExecutedCount (deadline : Nat) : Nat → List (Nat × String) → Nat
  | _, [] => 0
  | elapsed, (dur, _) :: rest =>
    1 + (if deadline < elapsed + dur then 0
         else specExecutedCount deadline (elapsed + dur) rest)

/-- The amended failure condition for `_parse_marker`: zero fields, a keyword
other than `timeout` or `method`, more than two positional arguments, or a
field supplied both positionally and by keyword. -/
def markerShapeFails (m : Marker) : Prop :=
  (m.args = [] ∧ m.kwargs = [])
  ∨ (∃ kv ∈ m.kwargs, kv.1 ≠ "timeout" ∧ kv.1 ≠ "method")
  ∨ 2 < m.args.length
  ∨ (1 ≤ m.args.length ∧ ∃ v, ("timeout", v) ∈ m.kwargs)
  ∨ (2 ≤ m.args.length ∧ ∃ v, ("method", v) ∈ m.kwargs)

/-- The Python float `0.01` as a rational, constructed in lowest terms. -/
def pointZeroOne : ℚ := ⟨1, 100, by decide, by decide⟩

/-! ## Theorems -/

/-- C9 counterexample: disarming after arming does not restore the signal
handler that was in effect before arming — a previously installed custom
SIGALRM handler is replaced by `SIG_DFL`, not reinstated. -/
theorem cancel_sigalrm_counterexample :
    (cancel_sigalrm (arm_sigalrm 5
        { alarmSeconds := 0, handler := SigHandler.other "prior" })).handler ≠
      (SignalState.mk 0 (SigHandler.other "prior")).handler := by
  decide

/-- C9 (amended): Signal-variant disarm cancels any pending alarm delivery
and resets the SIGALRM disposition to the system default `SIG_DFL` — not to
the pre-arm handler — and it is total and idempotent, hence safe to call even
if the deadline already fired and the handler already ran. -/
theorem cancel_sigalrm_spec :
    (∀ (t : Nat) (s : SignalState),
        cancel_sigalrm (arm_sigalrm t s) = ⟨0, SigHandler.dfl⟩)
    ∧ (∀ s : SignalState, cancel_sigalrm s = ⟨0, SigHandler.dfl⟩)
    ∧ (∀ s : SignalState, cancel_sigalrm (cancel_sigalrm s) = cancel_sigalrm s) :=
  ⟨fun _ _ => rfl, fun _ => rfl, fun _ => rfl⟩

/-- C8: at Signal-variant expiry the installed handler raises the timeout
failure even while an interactive debugger owns the interrupted thread's
trace hook — no debugger check exists on the expiry path
(src/pytest_timeout.py lines 160-168 and 195-209), contradicting the
repository's own test `test_suppresses_timeout_when_debugger_is_entered`
(src/test_pytest_timeout.py lines 464-487). -/
theorem signal_expiry_ignores_debugger :
    signal_expiry_handler true 7 [⟨7, "MainThread", "tb"⟩] 1 =
      ([], "Timeout >1s") := by
  rfl

/-- C7: `_validate_timeout` pipes every value through `int(...)`: the
fractional deadline `0.01` is truncated to `0`, which `pytest_runtest_setup`
then treats as "no enforcement", and the fractional numeric string `"2.5"`
is rejected outright — contradicting the repository's own test
`test_timeout_mark_non_int` (src/test_pytest_timeout.py lines 262-273),
which expects a `0.01` marker deadline to be enforced. -/
theorem validate_timeout_truncation_bug :
    _validate_timeout (some (TVal.vFloat pointZeroOne)) "marker" = .ok (some 0)
    ∧ pytest_runtest_setup ⟨true, none, some "thread", none, "", ""⟩
        (some ⟨[TVal.vFloat pointZeroOne], []⟩) = .ok .noArming
    ∧ _validate_timeout (some (TVal.vStr "2.5")) "marker"
        = .error "Invalid timeout 2.5 from marker" := by
  refine ⟨rfl, rfl, rfl⟩

/-- C6 counterexample: the keyword field `func_only` is not recognized by
`_parse_marker` — an annotation carrying only `func_only=True` fails with a
shape error instead of being accepted. -/
theorem parse_marker_func_only_counterexample :
    _parse_marker ⟨[], [("func_only", TVal.vBool true)]⟩ =
      .error "Invalid keyword argument for timeout marker: func_only" := by
  rfl

/-- C5: whenever the resolved deadline is absent or at most zero,
`pytest_runtest_setup` returns normally without arming any enforcement — no
alarm, no signal handler, no watchdog thread (the guard
`if timeout <= 0: return  # None < 0` in src/pytest_timeout.py line 158). -/
theorem setup_no_enforcement (cfg : ConfigEnv) (marker : Option Marker)
    (tm : Option Int) (meth : String)
    (h : get_params cfg marker = .ok (tm, meth))
    (habs : tm = none ∨ ∃ t, tm = some t ∧ t ≤ 0) :
    pytest_runtest_setup cfg marker = .ok .noArming := by
  unfold pytest_runtest_setup
  rw [h]
  rcases habs with h0 | ⟨t, ht, hle⟩
  · subst h0; rfl
  · subst ht; simp [hle]

/-- Witness for C5: a command-line `--timeout=0` resolves to a deadline of 0
and the setup step arms nothing. -/
theorem setup_no_enforcement_witness :
    pytest_runtest_setup ⟨true, some 0, none, none, "", ""⟩ none =
      .ok .noArming :=
  setup_no_enforcement ⟨true, some 0, none, none, "", ""⟩ none (some 0) "signal"
    rfl (Or.inr ⟨0, rfl, le_refl 0⟩)

/-- The keyword loop errors exactly when some keyword is neither `timeout`
nor `method`, whatever the accumulators hold. -/
lemma applyKwargs_error_iff (kwargs : List (String × TVal)) (t m : Option TVal) :
    (∃ e, applyKwargs kwargs t m = .error e) ↔
      ∃ kv ∈ kwargs, kv.1 ≠ "timeout" ∧ kv.1 ≠ "method" := by
  induction kwargs generalizing t m with
  | nil => simp [applyKwargs]
  | cons kv rest ih =>
    obtain ⟨kw, val⟩ := kv
    by_cases h1 : kw = "timeout"
    · simp [applyKwargs, h1, ih]
    · by_cases h2 : kw = "method"
      · simp [applyKwargs, h1, h2, ih]
      · simp [applyKwargs, h1, h2]

/-- When the keyword loop succeeds, a field is set exactly when it was
already set or the corresponding keyword occurs. -/
lemma applyKwargs_ok_isSome (kwargs : List (String × TVal)) (t m t' m' : Option TVal)
    (h : applyKwargs kwargs t m = .ok (t', m')) :
    (t'.isSome ↔ (t.isSome ∨ ∃ v, ("timeout", v) ∈ kwargs))
    ∧ (m'.isSome ↔ (m.isSome ∨ ∃ v, ("method", v) ∈ kwargs)) := by
  induction kwargs generalizing t m with
  | nil =>
    simp [applyKwargs] at h
    obtain ⟨ht, hm⟩ := h
    subst ht; subst hm
    simp
  | cons kv rest ih =>
    obtain ⟨kw, val⟩ := kv
    by_cases h1 : kw = "timeout"
    · subst h1
      rw [applyKwargs] at h
      simp at h
      have := ih (some val) m h
      constructor
      · rw [this.1]; simp
      · rw [this.2]; simp
    · by_cases h2 : kw = "method"
      · subst h2
        rw [applyKwargs] at h
        simp [h1] at h
        have := ih t (some val) h
        constructor
        · rw [this.1]
          simp [Ne.symm h1]
        · rw [this.2]; simp
      · rw [applyKwargs] at h
        simp [h1, h2] at h

/-- C6 (amended): `_parse_marker` fails exactly when the annotation has zero
fields, carries a keyword other than `timeout` or `method` (in particular
`func_only` is not recognized), has more than two positional arguments, or
supplies `timeout` (resp. `method`) both positionally and by keyword. -/
theorem parse_marker_error_iff (m : Marker) :
    (∃ e, _parse_marker m = .error e) ↔ markerShapeFails m := by
  unfold _parse_marker markerShapeFails
  by_cases hEmpty : m.args.isEmpty ∧ m.kwargs.isEmpty
  · simp only [hEmpty, if_true]
    have : m.args = [] ∧ m.kwargs = [] := by
      constructor
      · exact List.isEmpty_iff.mp hEmpty.1
      · exact List.isEmpty_iff.mp hEmpty.2
    simp [this.1, this.2]
  · simp only [hEmpty, if_false]
    rcases hAK : applyKwargs m.kwargs none none with e | ⟨t0, m0⟩
    · have hbad : ∃ kv ∈ m.kwargs, kv.1 ≠ "timeout" ∧ kv.1 ≠ "method" :=
        (applyKwargs_error_iff m.kwargs none none).mp ⟨e, hAK⟩
      simp [hbad]
    · have hgood := applyKwargs_ok_isSome m.kwargs none none t0 m0 hAK
      have hnobad : ¬∃ kv ∈ m.kwargs, kv.1 ≠ "timeout" ∧ kv.1 ≠ "method" := by
        intro hb
        obtain ⟨e, he⟩ := (applyKwargs_error_iff m.kwargs none none).mpr hb
        rw [hAK] at he
        exact Except.noConfusion he
      have ht0 : t0.isSome ↔ ∃ v, ("timeout", v) ∈ m.kwargs := by
        rw [hgood.1]; simp
      have hm0 : m0.isSome ↔ ∃ v, ("method", v) ∈ m.kwargs := by
        rw [hgood.2]; simp
      by_cases c1 : 1 ≤ m.args.length ∧ t0.isSome
      · simp only [c1, if_true]
        have : 1 ≤ m.args.length ∧ ∃ v, ("timeout", v) ∈ m.kwargs :=
          ⟨c1.1, ht0.mp c1.2⟩
        simp [this, hnobad]
      · simp only [c1, if_false]
        by_cases c2 : 2 ≤ m.args.length ∧ m0.isSome
        · simp only [c2, if_true]
          have : 2 ≤ m.args.length ∧ ∃ v, ("method", v) ∈ m.kwargs :=
            ⟨c2.1, hm0.mp c2.2⟩
          simp [this, hnobad]
        · simp only [c2, if_false]
          by_cases c3 : 2 < m.args.length
          · simp [c3, hnobad]
          · simp only [c3, if_false]
            have hne : ¬((m.args = [] ∧ m.kwargs = [])) := by
              intro hc
              exact hEmpty ⟨List.isEmpty_iff.mpr hc.1, List.isEmpty_iff.mpr hc.2⟩
            have hc1 : ¬(1 ≤ m.args.length ∧ ∃ v, ("timeout", v) ∈ m.kwargs) := by
              intro hc
              exact c1 ⟨hc.1, ht0.mpr hc.2⟩
            have hc2 : ¬(2 ≤ m.args.length ∧ ∃ v, ("method", v) ∈ m.kwargs) := by
              intro hc
              exact c2 ⟨hc.1, hm0.mpr hc.2⟩
            simp [hne, hnobad, c3, hc1, hc2]

/-- Witness for C6: three positional arguments make the marker fail, and a
single positional numeric argument is accepted. -/
theorem parse_marker_error_iff_witness :
    (∃ e, _parse_marker ⟨[TVal.vInt 1, TVal.vStr "thread", TVal.vInt 3], []⟩ =
        .error e)
    ∧ ¬∃ e, _parse_marker ⟨[TVal.vInt 5], []⟩ = .error e := by
  constructor
  · exact (parse_marker_error_iff ⟨[TVal.vInt 1, TVal.vStr "thread", TVal.vInt 3], []⟩).mpr
      (Or.inr (Or.inr (Or.inl (by decide))))
  · intro hc
    have := (parse_marker_error_iff ⟨[TVal.vInt 5], []⟩).mp hc
    simp [markerShapeFails] at this

/-- A stack dump is empty exactly when every enumerated frame belongs to the
dumping thread. -/
lemma dump_stacks_eq_nil_iff (cur : Nat) (frames threads : List (Nat × String)) :
    dump_stacks cur frames threads = [] ↔ ∀ p ∈ frames, p.1 = cur := by
  induction frames with
  | nil => simp [dump_stacks]
  | cons p rest ih =>
    obtain ⟨i, st⟩ := p
    by_cases h : i = cur
    · simp [dump_stacks, h, ih]
    · simp [dump_stacks, h]

/-- C2: on Signal-variant expiry the failure message is exactly
`Timeout >{deadline}s`; with at most one live thread nothing at all is
written (no banner); with more than one live thread the output is an opening
`Timeout` banner, a non-empty stack snapshot, and a matching closing
banner. -/
theorem timeout_sigalrm_spec (cur : Nat) (threads : List PyThread) (timeout : Int)
    (hmem : cur ∈ threads.map PyThread.ident)
    (hnodup : (threads.map PyThread.ident).Nodup) :
    (timeout_sigalrm cur threads timeout).2 = "Timeout >" ++ toString timeout ++ "s"
    ∧ (threads.length ≤ 1 → (timeout_sigalrm cur threads timeout).1 = [])
    ∧ (1 < threads.length →
        ∃ mid, mid ≠ [] ∧
          (timeout_sigalrm cur threads timeout).1 =
            Effect.title "Timeout" '+' :: (mid ++ [Effect.title "Timeout" '+'])) := by
  refine ⟨rfl, ?_, ?_⟩
  · intro hle
    match threads, hmem with
    | [t], hmem =>
      have hid : t.ident = cur := by
        have h := hmem
        simp at h
        exact h.symm
      simp [timeout_sigalrm, dump_stacks, hid]
  · intro hgt
    refine ⟨dump_stacks cur (threads.map fun t => (t.ident, t.stack))
        (threads.map fun t => (t.ident, t.name)), ?_, ?_⟩
    · rw [Ne, dump_stacks_eq_nil_iff]
      intro hall
      match threads, hgt, hnodup, hall with
      | a :: b :: rest, _, hnodup, hall =>
        have hne : a.ident ≠ b.ident := by
          rcases List.nodup_cons.mp hnodup with ⟨hnotin, _⟩
          exact fun hc => hnotin (by simp [hc])
        have ha : a.ident = cur := by
          have := hall (a.ident, a.stack) (by simp)
          simpa using this
        have hb : b.ident = cur := by
          have := hall (b.ident, b.stack) (by simp)
          simpa using this
        exact hne (ha.trans hb.symm)
    · simp [timeout_sigalrm, hgt]

/-- Witness for C2, the spec's concrete single-thread scenario: a 1-second
Signal expiry with only the interrupted thread alive raises exactly
`Timeout >1s` and writes no banner. -/
theorem timeout_sigalrm_spec_witness :
    (timeout_sigalrm 7 [⟨7, "MainThread", "tb"⟩] 1).2 = "Timeout >" ++ toString (1 : Int) ++ "s"
    ∧ (([⟨7, "MainThread", "tb"⟩] : List PyThread).length ≤ 1 →
        (timeout_sigalrm 7 [⟨7, "MainThread", "tb"⟩] 1).1 = [])
    ∧ (1 < ([⟨7, "MainThread", "tb"⟩] : List PyThread).length →
        ∃ mid, mid ≠ [] ∧
          (timeout_sigalrm 7 [⟨7, "MainThread", "tb"⟩] 1).1 =
            Effect.title "Timeout" '+' :: (mid ++ [Effect.title "Timeout" '+'])) :=
  timeout_sigalrm_spec 7 [⟨7, "MainThread", "tb"⟩] 1 (by simp) (by simp)

/-- C10: the stack dump renders, in enumeration order, one titled section per
enumerated frame other than the dumping thread's; the section title carries
the thread's display name resolved against the live-thread list, and an
identity matching no known thread resolves to the literal `<unknown>`; an
identity that is known resolves to the name of a thread carrying it. -/
theorem dump_stacks_spec (cur : Nat) (frames threads : List (Nat × String)) :
    dump_stacks cur frames threads =
      (frames.filter (fun p => p.1 ≠ cur)).flatMap (fun p =>
        [Effect.title ("Stack of " ++ lookupThreadName threads p.1 ++
            " (" ++ toString p.1 ++ ")") '~',
         Effect.text p.2])
    ∧ (∀ ident, (∀ nm, (ident, nm) ∉ threads) →
        lookupThreadName threads ident = "<unknown>")
    ∧ (∀ ident nm, (ident, nm) ∈ threads →
        ∃ nm', lookupThreadName threads ident = nm' ∧ (ident, nm') ∈ threads) := by
  refine ⟨?_, ?_, ?_⟩
  · induction frames with
    | nil => simp [dump_stacks]
    | cons p rest ih =>
      obtain ⟨i, st⟩ := p
      by_cases h : i = cur
      · simp [dump_stacks, h, ih]
      · simp [dump_stacks, h, ih]
  · intro ident hno
    unfold lookupThreadName
    rcases hfind : threads.find? (fun t => t.1 = ident) with _ | t
    · rw [hfind]
    · exfalso
      have hmem := List.mem_of_find?_eq_some hfind
      have hpred := List.find?_some hfind
      simp at hpred
      exact hno t.2 (by rw [← hpred]; exact hmem)
  · intro ident nm hmem
    unfold lookupThreadName
    rcases hfind : threads.find? (fun t => t.1 = ident) with _ | t
    · exfalso
      have := List.find?_eq_none.mp hfind (ident, nm) hmem
      simp at this
    · rw [hfind]
      have hm := List.mem_of_find?_eq_some hfind
      have hpred := List.find?_some hfind
      simp at hpred
      exact ⟨t.2, rfl, by rw [← hpred]; exact hm⟩

/-- Witness for C10: a dump over three frames, one of them the dumper's and
one with no matching live thread. -/
theorem dump_stacks_spec_witness :
    dump_stacks 1 [(1, "f1"), (2, "f2"), (3, "f3")] [(2, "worker")] =
      (([(1, "f1"), (2, "f2"), (3, "f3")] : List (Nat × String)).filter
          (fun p => p.1 ≠ 1)).flatMap (fun p =>
        [Effect.title ("Stack of " ++ lookupThreadName [(2, "worker")] p.1 ++
            " (" ++ toString p.1 ++ ")") '~',
         Effect.text p.2])
    ∧ lookupThreadName [(2, "worker")] 3 = "<unknown>" :=
  ⟨(dump_stacks_spec 1 [(1, "f1"), (2, "f2"), (3, "f3")] [(2, "worker")]).1,
   (dump_stacks_spec 1 [(1, "f1"), (2, "f2"), (3, "f3")] [(2, "worker")]).2.1 3
     (by intro nm; simp)⟩

/-- C1: `get_params` resolves the deadline from the highest-priority layer
that supplies one, in the order annotation, command line, environment
variable, configuration file, built-in unset; the strategy is resolved in the
same order with no environment layer, defaulting to `signal` when the
platform supports SIGALRM and to `thread` otherwise.  The hypotheses say what
each layer supplies (`mt`/`mm` from the marker, `et` from the environment,
`it`/`im` from the ini file), assuming each present value validates. -/
theorem get_params_precedence (cfg : ConfigEnv) (marker : Option Marker)
    (mt : Option Int) (mm : Option String) (et it : Option Int) (im : Option String)
    (hm : markerParams marker = .ok (mt, mm))
    (he : _validate_timeout (cfg.envTimeout.map TVal.vStr)
        "PYTEST_TIMEOUT environment variable" = .ok et)
    (hi : (if cfg.iniTimeout ≠ "" then
        _validate_timeout (some (TVal.vStr cfg.iniTimeout)) "config file"
      else .ok none) = .ok it)
    (him : (if cfg.iniMethod ≠ "" then
        _validate_method (some (TVal.vStr cfg.iniMethod)) "config file"
      else .ok none) = .ok im) :
    get_params cfg marker =
      .ok (specFirstSupplied [mt, cfg.cmdTimeout, et, it],
        (specFirstSupplied [mm, cfg.cmdMethod, im]).getD
          (DEFAULT_METHOD cfg.haveSigalrm)) := by
  unfold get_params
  rw [hm]
  have htimeout : resolveTimeout cfg mt =
      .ok (specFirstSupplied [mt, cfg.cmdTimeout, et, it]) := by
    unfold resolveTimeout
    cases mt with
    | some t => simp [specFirstSupplied]
    | none =>
      cases hc : cfg.cmdTimeout with
      | some t => simp [specFirstSupplied]
      | none =>
        rw [he]
        cases et with
        | some t => simp [specFirstSupplied]
        | none =>
          rw [hi]
          cases it with
          | some t => simp [specFirstSupplied]
          | none => simp [specFirstSupplied]
  have hmethod : resolveMethod cfg mm =
      .ok ((specFirstSupplied [mm, cfg.cmdMethod, im]).getD
        (DEFAULT_METHOD cfg.haveSigalrm)) := by
    unfold resolveMethod
    cases mm with
    | some s => simp [specFirstSupplied]
    | none =>
      cases hc : cfg.cmdMethod with
      | some s => simp [specFirstSupplied]
      | none =>
        rw [him]
        cases im with
        | some s => simp [specFirstSupplied]
        | none => simp [specFirstSupplied]
  simp only [htimeout, hmethod]

/-- Witness for C1: all four user-settable deadline layers carry
distinguishable values (annotation 1, command line 2, environment `"3"`,
configuration file `"4"`) and the annotation wins; the strategy comes from
the command line because the annotation supplies none. -/
theorem get_params_precedence_witness :
    get_params ⟨true, some 2, some "signal", some "3", "4", "thread"⟩
      (some ⟨[TVal.vInt 1], []⟩) = .ok (some 1, "signal") := by
  have h := get_params_precedence
    ⟨true, some 2, some "signal", some "3", "4", "thread"⟩
    (some ⟨[TVal.vInt 1], []⟩) (some 1) none (some 3) (some 4) (some "thread")
    rfl rfl rfl rfl
  rw [h]
  rfl

/-- Every section title the stack dump writes starts with `Stack of `. -/
lemma stack_of_data_head (s : String) : ("Stack of " ++ s).data.head? = some 'S' := rfl

/-- A string not starting with `S` is never a stack-dump section title. -/
lemma stack_of_ne (s t : String) (h : t.data.head? ≠ some 'S') :
    "Stack of " ++ s ≠ t := fun he => h (he ▸ stack_of_data_head s)

/-- The stack dump never writes a title that does not start with `S`. -/
lemma title_not_mem_dump_stacks (cur : Nat) (frames threads : List (Nat × String))
    (t : String) (sep : Char) (ht : t.data.head? ≠ some 'S') :
    Effect.title t sep ∉ dump_stacks cur frames threads := by
  induction frames with
  | nil => simp [dump_stacks]
  | cons p rest ih =>
    obtain ⟨i, st⟩ := p
    by_cases h : i = cur
    · simpa [dump_stacks, h] using ih
    · intro hmem
      simp only [dump_stacks, h, if_false, List.mem_cons] at hmem
      rcases hmem with h1 | h1 | h1
      · exact stack_of_ne _ t ht (by injection h1 with h1 _; exact h1.symm)
      · exact Effect.noConfusion h1
      · exact ih h1

/-- The stack dump never terminates the process. -/
lemma exitProcess_not_mem_dump_stacks (cur : Nat)
    (frames threads : List (Nat × String)) (c : Nat) :
    Effect.exitProcess c ∉ dump_stacks cur frames threads := by
  induction frames with
  | nil => simp [dump_stacks]
  | cons p rest ih =>
    obtain ⟨i, st⟩ := p
    by_cases h : i = cur <;> simp [dump_stacks, h, ih]

/-- The `try` block of `timeout_timer` never terminates the process. -/
lemma exitProcess_not_mem_timer_try_full (env : TimerEnv) (c : Nat) :
    Effect.exitProcess c ∉ timer_try_full env := by
  intro hmem
  by_cases h1 : env.caplogPresent ∧ env.caplog ≠ "" <;>
    by_cases h2 : env.stdout ≠ "" <;>
      by_cases h3 : env.stderr ≠ "" <;>
        [skip; skip; skip; skip; skip; skip; skip; skip] <;>
    · simp [timer_try_full, h1, h2, h3] at hmem
      exact exitProcess_not_mem_dump_stacks env.cur env.frames env.threads c hmem

/-- With an empty captured stdout, no `Captured stdout` section title is
written by the `try` block. -/
lemma captured_stdout_not_mem_full (env : TimerEnv) (h : env.stdout = "") :
    Effect.title "Captured stdout" '~' ∉ timer_try_full env := by
  intro hmem
  by_cases h1 : env.caplogPresent ∧ env.caplog ≠ "" <;>
    by_cases h3 : env.stderr ≠ "" <;>
      [skip; skip; skip; skip] <;>
    · simp [timer_try_full, h1, h3, h] at hmem
      exact title_not_mem_dump_stacks env.cur env.frames env.threads
        "Captured stdout" '~' (by decide) hmem

/-- With an empty captured stderr, no `Captured stderr` section title is
written by the `try` block. -/
lemma captured_stderr_not_mem_full (env : TimerEnv) (h : env.stderr = "") :
    Effect.title "Captured stderr" '~' ∉ timer_try_full env := by
  intro hmem
  by_cases h1 : env.caplogPresent ∧ env.caplog ≠ "" <;>
    by_cases h2 : env.stdout ≠ "" <;>
      [skip; skip; skip; skip] <;>
    · simp [timer_try_full, h1, h2, h] at hmem
      exact title_not_mem_dump_stacks env.cur env.frames env.threads
        "Captured stderr" '~' (by decide) hmem

/-- Whatever the `try` block manages to write is a prefix of its full
diagnostic output. -/
lemma timer_try_body_subset (env : TimerEnv) :
    (timer_try_body env).1 ⊆ timer_try_full env := by
  unfold timer_try_body
  by_cases hc : ¬env.capmanPresent
  · simp [hc]
  · by_cases hs : env.suspendRaises
    · simp [hc, hs]
    · simp only [hc, hs, if_false]
      cases env.raiseAfter with
      | none => simp
      | some n =>
        by_cases hn : n < (timer_try_full env).length
        · simp only [hn, if_true]
          exact List.take_subset n (timer_try_full env)
        · simp [hn]

/-- C4: `timeout_timer` always ends by flushing stdout, flushing stderr, and
terminating the process with the non-zero status 1, on every execution path
(capture manager absent, `suspendcapture` raising, or any diagnostic step
raising partway through); every diagnostic effect precedes the flushes and
the exit, the exit occurs only there, and the captured stdout and stderr
sections are each written only when non-empty. -/
theorem timeout_timer_spec (env : TimerEnv) :
    ∃ pre, timeout_timer env =
        pre ++ [Effect.flushStdout, Effect.flushStderr, Effect.exitProcess 1]
      ∧ (∀ c, Effect.exitProcess c ∉ pre)
      ∧ (env.stdout = "" → Effect.title "Captured stdout" '~' ∉ pre)
      ∧ (env.stderr = "" → Effect.title "Captured stderr" '~' ∉ pre) := by
  refine ⟨(timer_try_body env).1 ++
      (if (timer_try_body env).2 then [Effect.printExc] else []), ?_, ?_, ?_, ?_⟩
  · rw [timeout_timer]
  · intro c hc
    rcases List.mem_append.mp hc with h | h
    · exact exitProcess_not_mem_timer_try_full env c (timer_try_body_subset env h)
    · rcases hr : (timer_try_body env).2 <;> simp [hr] at h
  · intro h0 hc
    rcases List.mem_append.mp hc with h | h
    · exact captured_stdout_not_mem_full env h0 (timer_try_body_subset env h)
    · rcases hr : (timer_try_body env).2 <;> simp [hr] at h
  · intro h0 hc
    rcases List.mem_append.mp hc with h | h
    · exact captured_stderr_not_mem_full env h0 (timer_try_body_subset env h)
    · rcases hr : (timer_try_body env).2 <;> simp [hr] at h

/-- Witness for C4: a concrete expiry with an empty captured stdout, a
non-empty stderr and no exception injected. -/
theorem timeout_timer_spec_witness :
    ∃ pre, timeout_timer ⟨true, false, "", "err", false, "", 1, [(2, "fr")], [(2, "w")], none⟩ =
        pre ++ [Effect.flushStdout, Effect.flushStderr, Effect.exitProcess 1]
      ∧ (∀ c, Effect.exitProcess c ∉ pre)
      ∧ ((TimerEnv.mk true false "" "err" false "" 1 [(2, "fr")] [(2, "w")] none).stdout = "" →
          Effect.title "Captured stdout" '~' ∉ pre)
      ∧ ((TimerEnv.mk true false "" "err" false "" 1 [(2, "fr")] [(2, "w")] none).stderr = "" →
          Effect.title "Captured stderr" '~' ∉ pre) :=
  timeout_timer_spec ⟨true, false, "", "err", false, "", 1, [(2, "fr")], [(2, "w")], none⟩

/-- Once the scheduler has been told to stop, no further unit executes and
the session state no longer changes. -/
lemma runUnits_stopped (d : Nat) (units : List (Nat × String)) (s : SessionState)
    (h : s.stopScheduling = true) : runUnits d s units = ([], s) := by
  cases units with
  | nil => rfl
  | cons u rest =>
    obtain ⟨dur, out⟩ := u
    simp [runUnits, h]

/-- Invariant of the scheduling loop: starting from a running, banner-free,
unstopped state, the executed units are exactly the spec-counted prefix, and
the final state is either still running with no banner or expired with
exactly the one session banner and scheduling stopped. -/
lemma runUnits_spec (d : Nat) (units : List (Nat × String)) :
    ∀ s : SessionState, s.phase = .Running → s.stopScheduling = false →
      s.banners = [] →
      (runUnits d s units).1 =
        (units.take (specExecutedCount d s.elapsed units)).map Prod.snd
      ∧ (((runUnits d s units).2.phase = .Running
            ∧ (runUnits d s units).2.banners = []
            ∧ (runUnits d s units).2.stopScheduling = false)
         ∨ ((runUnits d s units).2.phase = .Expired
            ∧ (runUnits d s units).2.banners = [sessionBanner d]
            ∧ (runUnits d s units).2.stopScheduling = true)) := by
  induction units with
  | nil =>
    intro s h1 h2 h3
    exact ⟨by simp [runUnits, specExecutedCount], Or.inl ⟨h1, h3, h2⟩⟩
  | cons u rest ih =>
    obtain ⟨dur, out⟩ := u
    intro s h1 h2 h3
    have hs2 : session_check d ⟨s.phase, s.elapsed + dur, s.banners, s.stopScheduling⟩ =
        (if d < s.elapsed + dur then
          ⟨.Expired, s.elapsed + dur, s.banners ++ [sessionBanner d], true⟩
         else ⟨s.phase, s.elapsed + dur, s.banners, s.stopScheduling⟩) := by
      simp only [session_check, h1]
    by_cases hexp : d < s.elapsed + dur
    · have hs2' : session_check d ⟨s.phase, s.elapsed + dur, s.banners, s.stopScheduling⟩ =
          ⟨.Expired, s.elapsed + dur, [sessionBanner d], true⟩ := by
        rw [hs2, if_pos hexp, h3]
        rfl
      have hrun : runUnits d s ((dur, out) :: rest) =
          (out :: ([] : List String),
           ⟨.Expired, s.elapsed + dur, [sessionBanner d], true⟩) := by
        rw [runUnits]
        rw [if_neg (by rw [h2]; exact Bool.false_ne_true)]
        rw [hs2']
        simp only [runUnits_stopped d rest
          ⟨.Expired, s.elapsed + dur, [sessionBanner d], true⟩ rfl]
      rw [hrun]
      constructor
      · simp [specExecutedCount, hexp]
      · exact Or.inr ⟨rfl, rfl, rfl⟩
    · have hs2' : session_check d ⟨s.phase, s.elapsed + dur, s.banners, s.stopScheduling⟩ =
          ⟨.Running, s.elapsed + dur, [], false⟩ := by
        rw [hs2, if_neg hexp, h1, h2, h3]
      have hrun : runUnits d s ((dur, out) :: rest) =
          (out :: (runUnits d ⟨.Running, s.elapsed + dur, [], false⟩ rest).1,
           (runUnits d ⟨.Running, s.elapsed + dur, [], false⟩ rest).2) := by
        rw [runUnits]
        rw [if_neg (by rw [h2]; exact Bool.false_ne_true)]
        rw [hs2']
      have hihs := ih ⟨.Running, s.elapsed + dur, [], false⟩ rfl rfl rfl
      rw [hrun]
      constructor
      · show out :: (runUnits d ⟨.Running, s.elapsed + dur, [], false⟩ rest).1 =
            (((dur, out) :: rest).take
              (specExecutedCount d s.elapsed ((dur, out) :: rest))).map Prod.snd
        rw [hihs.1]
        rw [specExecutedCount]
        rw [if_neg hexp, Nat.one_add, List.take_succ_cons, List.map_cons]
      · exact hihs.2

/-- C3 (amended): `check()` transitions `Running -> Expired` exactly when the
elapsed time exceeds the session deadline, writing on that transition the one
banner `!! session-timeout: {deadline} sec exceeded !!!` (the literal the
repository's tests pin down) and signalling the scheduler to stop; over a
whole run, the executed units are exactly those that start before the
deadline is detected — the unit in flight when it is crossed still completes
and reports its own outcome — at most one banner is ever written, and the
banner and the stop signal appear exactly when the session expired. -/
theorem session_deadline_spec (d : Nat) (units : List (Nat × String))
    (s : SessionState) :
    ((s.phase = .Running → d < s.elapsed →
        session_check d s = ⟨.Expired, s.elapsed, s.banners ++ [sessionBanner d], true⟩)
     ∧ (s.phase = .Running → s.elapsed ≤ d → session_check d s = s))
    ∧ (runSession d units).1 =
        (units.take (specExecutedCount d 0 units)).map Prod.snd
    ∧ (runSession d units).2.banners.length ≤ 1
    ∧ ((runSession d units).2.phase = .Expired ↔
        (runSession d units).2.banners = [sessionBanner d])
    ∧ ((runSession d units).2.phase = .Expired ↔
        (runSession d units).2.stopScheduling = true) := by
  have hrun := runUnits_spec d units ⟨.Running, 0, [], false⟩ rfl rfl rfl
  refine ⟨⟨?_, ?_⟩, ?_, ?_, ?_, ?_⟩
  · intro h1 h2
    simp only [session_check, h1, if_pos h2]
  · intro h1 h2
    simp only [session_check, h1, if_neg (not_lt.mpr h2)]
  · exact hrun.1
  · rcases hrun.2 with ⟨_, hb, _⟩ | ⟨_, hb, _⟩ <;> rw [runSession] <;> simp [hb]
  · rcases hrun.2 with ⟨hp, hb, _⟩ | ⟨hp, hb, _⟩ <;> rw [runSession] <;>
      simp [hp, hb]
  · rcases hrun.2 with ⟨hp, _, hst⟩ | ⟨hp, _, hst⟩ <;> rw [runSession] <;>
      simp [hp, hst]

/-- C3 counterexample: the banner actually written when a 2-second session
deadline is exceeded is `!! session-timeout: 2.0 sec exceeded !!!` (the
literal asserted by src/test_pytest_timeout.py lines 637-638), not the
claimed `!! session-timeout: 2.0s exceeded !!!`; the first (over-deadline)
unit still completes and the second never starts. -/
theorem session_banner_counterexample :
    (runSession 2 [(3, "passed"), (1, "passed")]).2.banners =
      ["!! session-timeout: 2.0 sec exceeded !!!"]
    ∧ "!! session-timeout: 2.0 sec exceeded !!!" ≠
        "!! session-timeout: 2.0s exceeded !!!"
    ∧ (runSession 2 [(3, "passed"), (1, "passed")]).1 = ["passed"] := by
  refine ⟨rfl, by decide, rfl⟩

/-- Witness for C3: the session theorem instantiated at deadline 2, two
units of 3 and 1 seconds, and a concrete running state past the deadline. -/
theorem session_deadline_spec_witness :
    (((SessionState.mk .Running 3 [] false).phase = .Running → 2 < (SessionState.mk .Running 3 [] false).elapsed →
        session_check 2 (SessionState.mk .Running 3 [] false) =
          ⟨.Expired, (SessionState.mk .Running 3 [] false).elapsed,
           (SessionState.mk .Running 3 [] false).banners ++ [sessionBanner 2], true⟩)
     ∧ ((SessionState.mk .Running 3 [] false).phase = .Running →
        (SessionState.mk .Running 3 [] false).elapsed ≤ 2 →
        session_check 2 (SessionState.mk .Running 3 [] false) = SessionState.mk .Running 3 [] false))
    ∧ (runSession 2 [(3, "passed"), (1, "passed")]).1 =
        (([(3, "passed"), (1, "passed")] : List (Nat × String)).take
          (specExecutedCount 2 0 [(3, "passed"), (1, "passed")])).map Prod.snd
    ∧ (runSession 2 [(3, "passed"), (1, "passed")]).2.banners.length ≤ 1
    ∧ ((runSession 2 [(3, "passed"), (1, "passed")]).2.phase = .Expired ↔
        (runSession 2 [(3, "passed"), (1, "passed")]).2.banners = [sessionBanner 2])
    ∧ ((runSession 2 [(3, "passed"), (1, "passed")]).2.phase = .Expired ↔
        (runSession 2 [(3, "passed"), (1, "passed")]).2.stopScheduling = true) :=
  session_deadline_spec 2 [(3, "passed"), (1, "passed")] ⟨.Running, 3, [], false⟩

end PytestTimeout
